import Mathlib

/-!
Shallow embedding of `tutorial_poc.py` (class `SlideDeckAIClient`).

The network is modelled as an oracle `Net` mapping each HTTP request to either
a raised Python exception (`PyExn`) or a received `Response`.  Each client
operation is translated into the monad `PM`, which threads the list of
requests issued so far (the trace) and propagates uncaught exceptions; the
Python `try/except` blocks are translated by `pyTry`.  `response.json()` is
modelled by the `jsonResult` field of the received response: the outcome of
the library-side JSON parse, either a parsed value or the message of the
raised decode exception.
-/

set_option autoImplicit false

/-- A JSON value, as produced by a successful `response.json()` call. -/
inductive JsonVal where
  | null
  | bool (b : Bool)
  | num (n : Int)
  | str (s : String)
  | arr (elems : List JsonVal)
  | obj (fields : List (String × JsonVal))
  deriving Repr

/-- HTTP method used by the client (`session.get` / `session.post`). -/
inductive Method where
  | get
  | post
  deriving DecidableEq, Repr

/-- An HTTP request issued by the client: method, full URL, optional JSON
body (the `json=` keyword of `session.post`), optional timeout in seconds. -/
structure Request where
  method : Method
  url : String
  body : Option JsonVal
  timeout : Option Nat
  deriving Repr

/-- A received HTTP response.  `jsonResult` models the outcome of calling
`response.json()`: `Except.ok` with the parsed value, or `Except.error` with
the message of the `JSONDecodeError` it raises on a non-JSON body.
`content_length` models `len(response.content)`. -/
structure Response where
  status_code : Nat
  headers : List (String × String)
  content_length : Nat
  jsonResult : Except String JsonVal
  deriving Repr

/-- A Python exception as seen by the client's `except` clauses:
`requests.exceptions.ConnectionError` is distinguished (it has its own
handler in `check_health` and `generate_slide_deck`); every other
`Exception`, including `JSONDecodeError` from `response.json()`, is `exn`.
The carried string is `str(e)`. -/
inductive PyExn where
  | connectionError (msg : String)
  | exn (msg : String)
  deriving DecidableEq, Repr

/-- The message `str(e)` of an exception. -/
def PyExn.msg : PyExn → String
  | .connectionError m => m
  | .exn m => m

/-- The network oracle: what each issued request comes back as. -/
def Net : Type := Request → Except PyExn Response

/-- Probe monad: a computation that issues requests (appending them to the
trace) and may raise a Python exception. -/
def PM (α : Type) : Type := List Request → Except PyExn α × List Request

/-- Return a value, raising nothing and issuing no request. -/
def PM.pure {α : Type} (a : α) : PM α := fun log => (Except.ok a, log)

/-- Sequence two computations; a raised exception propagates (skipping the
continuation) but the trace of requests already issued is kept. -/
def PM.bind {α β : Type} (x : PM α) (f : α → PM β) : PM β := fun log =>
  match x log with
  | (Except.ok a, log₁) => f a log₁
  | (Except.error e, log₁) => (Except.error e, log₁)

/-- Translation of a Python `try: body except ...: handler e`: exceptions
raised by the body are given to the handler; requests issued before the
raise stay in the trace. -/
def pyTry {α : Type} (body : PM α) (handler : PyExn → PM α) : PM α := fun log =>
  match body log with
  | (Except.ok a, log₁) => (Except.ok a, log₁)
  | (Except.error e, log₁) => handler e log₁

/-- Issue one request on the network: the request is appended to the trace,
and the oracle's exception, if any, is raised. -/
def callNet (net : Net) (req : Request) : PM Response := fun log =>
  (net req, log ++ [req])

/-- Calling `response.json()`: yields the parsed value or raises the decode
exception. -/
def respJson (response : Response) : PM JsonVal :=
  match response.jsonResult with
  | Except.ok j => PM.pure j
  | Except.error m => fun log => (Except.error (PyExn.exn m), log)

/-- Python's `base_url.rstrip('/')`: remove every trailing `/` character. -/
def rstripSlash (s : String) : String :=
  String.mk ((s.data.reverse.dropWhile (fun c => c == '/')).reverse)

/-- The client object: holds the base URL fixed at construction
(`self.base_url`).  The `requests.Session` carries no modelled state. -/
structure SlideDeckAIClient where
  base_url : String
  deriving Repr

/-- `__init__`: store the base URL normalized with `rstrip('/')`. -/
def SlideDeckAIClient.init (base_url : String) : SlideDeckAIClient :=
  { base_url := rstripSlash base_url }

/-- A GET request as issued by `session.get(url)`: no body, no timeout. -/
def getReq (url : String) : Request :=
  { method := Method.get, url := url, body := none, timeout := none }

/-- Result dictionary of `check_health`: either the ok-dict with the status
code and parsed JSON data, or the error-dict with a message. -/
inductive HealthResult where
  | ok (code : Nat) (data : JsonVal)
  | error (message : String)
  deriving Repr

/-- `check_health`: GET `{base_url}/health`; on a received response return
the ok-dict with its status code and `response.json()`; a
`ConnectionError` gives the fixed message, any other exception gives
`str(e)`. -/
def check_health (net : Net) (c : SlideDeckAIClient) : PM HealthResult :=
  pyTry
    (PM.bind (callNet net (getReq (c.base_url ++ "/health"))) (fun response =>
      PM.bind (respJson response) (fun data =>
        PM.pure (HealthResult.ok response.status_code data))))
    (fun e =>
      match e with
      | PyExn.connectionError _ => PM.pure (HealthResult.error "Could not connect to server")
      | PyExn.exn m => PM.pure (HealthResult.error m))

/-- Result dictionary of `get_page`: status code, header map and byte length
on success, or the error-dict with `str(e)`. -/
inductive PageResult where
  | ok (code : Nat) (headers : List (String × String)) (content_length : Nat)
  | error (message : String)
  deriving Repr

/-- `get_page`: GET `{base_url}{path}`; every exception is caught by the
single generic handler and reported as `str(e)`. -/
def get_page (net : Net) (c : SlideDeckAIClient) (path : String) : PM PageResult :=
  pyTry
    (PM.bind (callNet net (getReq (c.base_url ++ path))) (fun response =>
      PM.pure (PageResult.ok response.status_code response.headers response.content_length)))
    (fun e => PM.pure (PageResult.error e.msg))

/-- The fixed well-known paths probed in step 3 of `test_homepage`. -/
def endpoints : List String := ["/_stcore/health", "/robots.txt", "/favicon.ico"]

/-- One printed line of the well-known-path sweep: the path with the
response's HTTP code, or the path marked not available. -/
inductive PathReport where
  | available (endpoint : String) (code : Nat)
  | unavailable (endpoint : String)
  deriving Repr

/-- Result of `test_homepage`: the returned success flag, together with the
per-path classification lines printed by the well-known-path sweep. -/
structure TestResult where
  success : Bool
  reports : List PathReport
  deriving Repr

/-- The well-known-path loop of `test_homepage`: `get_page` each path in
order and classify it from the result's variant. -/
def sweep (net : Net) (c : SlideDeckAIClient) : List String → PM (List PathReport)
  | [] => PM.pure []
  | ep :: rest =>
    PM.bind (get_page net c ep) (fun r =>
      PM.bind (sweep net c rest) (fun rs =>
        PM.pure ((match r with
          | PageResult.ok code _ _ => PathReport.available ep code
          | PageResult.error _ => PathReport.unavailable ep) :: rs)))

/-- The WebSocket URL synthesized (for display only) in step 4 of
`test_homepage`; no socket is opened. -/
def ws_url (c : SlideDeckAIClient) : String :=
  (c.base_url.replace "http://" "ws://") ++ "/ws"

/-- `test_homepage`: health check, then GET `/`, each aborting with the
failure dict on an error result; then the well-known-path sweep, which
never aborts.  The display-only WebSocket URL of step 4 is computed but
unused. -/
def test_homepage (net : Net) (c : SlideDeckAIClient) : PM TestResult :=
  PM.bind (check_health net c) (fun health =>
    match health with
    | HealthResult.error _ => PM.pure { success := false, reports := [] }
    | HealthResult.ok _ _ =>
      PM.bind (get_page net c "/") (fun result =>
        match result with
        | PageResult.error _ => PM.pure { success := false, reports := [] }
        | PageResult.ok _ _ _ =>
          PM.bind (sweep net c endpoints) (fun reports =>
            let _ := ws_url c
            PM.pure { success := true, reports := reports })))

/-- The fixed ordered candidate paths of `generate_slide_deck`. -/
def api_endpoints : List String :=
  ["/api/generate", "/api/slide", "/api/v1/generate", "/api/generate_slides", "/generate"]

/-- The JSON payload posted to every candidate: exactly the keys `prompt`
and `api_key`; an absent credential is serialized as JSON `null`. -/
def payloadJson (prompt : String) (api_key : Option String) : JsonVal :=
  JsonVal.obj
    [("prompt", JsonVal.str prompt),
     ("api_key", match api_key with
       | some k => JsonVal.str k
       | none => JsonVal.null)]

/-- A POST request as issued by `session.post(url, json=payload, timeout=30)`. -/
def postReq (url : String) (body : JsonVal) : Request :=
  { method := Method.post, url := url, body := some body, timeout := some 30 }

/-- The candidate POST request of `generate_slide_deck` for one endpoint. -/
def genReq (c : SlideDeckAIClient) (prompt : String) (api_key : Option String)
    (endpoint : String) : Request :=
  postReq (c.base_url ++ endpoint) (payloadJson prompt api_key)

/-- Result dictionary of `generate_slide_deck`. -/
inductive GenResult where
  | success (data : JsonVal)
  | failure (message : String)
  deriving Repr

/-- Control outcome of one iteration of the candidate loop: return the
parsed data (Python `return`), go on to the next candidate (fall through /
`pass`), or leave the loop (`break` on `ConnectionError`). -/
inductive LoopSignal where
  | found (data : JsonVal)
  | next
  | stop
  deriving Repr

/-- One iteration of the candidate loop of `generate_slide_deck`: POST the
payload; on a 200 response try `response.json()` and on success return the
data; a decode failure falls to the bare inner `except` and continues; a
non-200 status continues; a `ConnectionError` breaks the loop; any other
exception continues. -/
def tryEndpoint (net : Net) (c : SlideDeckAIClient) (prompt : String)
    (api_key : Option String) (endpoint : String) : PM LoopSignal :=
  pyTry
    (PM.bind (callNet net (genReq c prompt api_key endpoint)) (fun response =>
      if response.status_code = 200 then
        pyTry
          (PM.bind (respJson response) (fun data =>
            PM.pure (LoopSignal.found data)))
          (fun _ => PM.pure LoopSignal.next)
      else
        PM.pure LoopSignal.next))
    (fun e =>
      match e with
      | PyExn.connectionError _ => PM.pure LoopSignal.stop
      | PyExn.exn _ => PM.pure LoopSignal.next)

/-- The candidate loop: on `found` return the success dict; on `stop`
(`break`) and on exhaustion, fall through to the final failure dict. -/
def genLoop (net : Net) (c : SlideDeckAIClient) (prompt : String)
    (api_key : Option String) : List String → PM GenResult
  | [] => PM.pure (GenResult.failure "No API endpoint found")
  | ep :: rest =>
    PM.bind (tryEndpoint net c prompt api_key ep) (fun sig =>
      match sig with
      | LoopSignal.found data => PM.pure (GenResult.success data)
      | LoopSignal.stop => PM.pure (GenResult.failure "No API endpoint found")
      | LoopSignal.next => genLoop net c prompt api_key rest)

/-- `generate_slide_deck`: run the candidate loop over the five fixed
paths. -/
def generate_slide_deck (net : Net) (c : SlideDeckAIClient) (prompt : String)
    (api_key : Option String) : PM GenResult :=
  genLoop net c prompt api_key api_endpoints

/-! ## Pure run models

Each operation never propagates an exception and appends a trace determined
by the network oracle.  The functions below give the returned result and the
appended trace; the `_run` lemmas further down prove the monadic translations
equal to them. -/

/-- The result `check_health` returns, as a function of the oracle. -/
def healthRes (net : Net) (c : SlideDeckAIClient) : HealthResult :=
  match net (getReq (c.base_url ++ "/health")) with
  | Except.ok resp =>
    match resp.jsonResult with
    | Except.ok j => HealthResult.ok resp.status_code j
    | Except.error m => HealthResult.error m
  | Except.error (PyExn.connectionError _) => HealthResult.error "Could not connect to server"
  | Except.error (PyExn.exn m) => HealthResult.error m

/-- The result `get_page` returns, as a function of the oracle. -/
def pageRes (net : Net) (c : SlideDeckAIClient) (path : String) : PageResult :=
  match net (getReq (c.base_url ++ path)) with
  | Except.ok resp => PageResult.ok resp.status_code resp.headers resp.content_length
  | Except.error e => PageResult.error e.msg

/-- The classification the well-known-path sweep prints for one path:
available with the status code when the oracle yields a response, not
available when it raises. -/
def classify (net : Net) (c : SlideDeckAIClient) (ep : String) : PathReport :=
  match net (getReq (c.base_url ++ ep)) with
  | Except.ok resp => PathReport.available ep resp.status_code
  | Except.error _ => PathReport.unavailable ep

/-- The result `test_homepage` returns, as a function of the oracle. -/
def homepageRes (net : Net) (c : SlideDeckAIClient) : TestResult :=
  match healthRes net c with
  | HealthResult.error _ => { success := false, reports := [] }
  | HealthResult.ok _ _ =>
    match pageRes net c "/" with
    | PageResult.error _ => { success := false, reports := [] }
    | PageResult.ok _ _ _ => { success := true, reports := endpoints.map (classify net c) }

/-- The requests `test_homepage` issues, as a function of the oracle. -/
def homepageTrace (net : Net) (c : SlideDeckAIClient) : List Request :=
  getReq (c.base_url ++ "/health") ::
    (match healthRes net c with
     | HealthResult.error _ => []
     | HealthResult.ok _ _ =>
       getReq (c.base_url ++ "/") ::
         (match pageRes net c "/" with
          | PageResult.error _ => []
          | PageResult.ok _ _ _ => endpoints.map (fun ep => getReq (c.base_url ++ ep))))

/-- The loop signal one candidate of `generate_slide_deck` produces, as a
function of the oracle. -/
def endpointSignal (net : Net) (c : SlideDeckAIClient) (prompt : String)
    (api_key : Option String) (ep : String) : LoopSignal :=
  match net (genReq c prompt api_key ep) with
  | Except.error (PyExn.connectionError _) => LoopSignal.stop
  | Except.error (PyExn.exn _) => LoopSignal.next
  | Except.ok resp =>
    if resp.status_code = 200 then
      match resp.jsonResult with
      | Except.ok j => LoopSignal.found j
      | Except.error _ => LoopSignal.next
    else LoopSignal.next

/-- The result the candidate loop returns, as a function of the oracle. -/
def genLoopRes (net : Net) (c : SlideDeckAIClient) (prompt : String)
    (api_key : Option String) : List String → GenResult
  | [] => GenResult.failure "No API endpoint found"
  | ep :: rest =>
    match endpointSignal net c prompt api_key ep with
    | LoopSignal.found data => GenResult.success data
    | LoopSignal.stop => GenResult.failure "No API endpoint found"
    | LoopSignal.next => genLoopRes net c prompt api_key rest

/-- The requests the candidate loop issues, as a function of the oracle. -/
def genLoopTrace (net : Net) (c : SlideDeckAIClient) (prompt : String)
    (api_key : Option String) : List String → List Request
  | [] => []
  | ep :: rest =>
    genReq c prompt api_key ep ::
      (match endpointSignal net c prompt api_key ep with
       | LoopSignal.next => genLoopTrace net c prompt api_key rest
       | _ => [])

/-! ## Concrete oracles and the default client, for evaluation -/

/-- The default client of the script: `SlideDeckAIClient("http://localhost:8501")`. -/
def localClient : SlideDeckAIClient := SlideDeckAIClient.init "http://localhost:8501"

/-- A 404 response whose HTML body is not JSON: `response.json()` raises. -/
def nonJsonResp : Response :=
  { status_code := 404
    headers := [("Content-Type", "text/html")]
    content_length := 19
    jsonResult := Except.error "Expecting value: line 1 column 1 (char 0)" }

/-- A 200 response with the JSON body of an empty object. -/
def jsonOkResp : Response :=
  { status_code := 200
    headers := [("Content-Type", "application/json")]
    content_length := 2
    jsonResult := Except.ok (JsonVal.obj []) }

/-- A 200 response with a small JSON object body. -/
def slideOkResp : Response :=
  { status_code := 200
    headers := [("Content-Type", "application/json")]
    content_length := 13
    jsonResult := Except.ok (JsonVal.obj [("ok", JsonVal.bool true)]) }

/-- A server answering every request with the non-JSON 404 page. -/
def nonJsonNet : Net := fun _ => Except.ok nonJsonResp

/-- A server answering every request with a parseable 200. -/
def okNet : Net := fun _ => Except.ok jsonOkResp

/-- A target with nothing listening: every request raises
`ConnectionError`. -/
def refusedNet : Net := fun _ => Except.error (PyExn.connectionError "Connection refused")

/-- A target on which every request raises a non-connection transport
fault. -/
def timeoutNet : Net := fun _ => Except.error (PyExn.exn "Read timed out.")

/-- A server on which only the second generation candidate succeeds; every
other path is the non-JSON 404 page. -/
def hitNet : Net := fun req =>
  if req.url = "http://localhost:8501/api/slide" then Except.ok slideOkResp
  else Except.ok nonJsonResp

/-- A server on which fetching the homepage raises a timeout but everything
else answers a parseable 200. -/
def homeFailNet : Net := fun req =>
  if req.url = "http://localhost:8501/" then Except.error (PyExn.exn "Read timed out.")
  else Except.ok jsonOkResp

/-- A server on which `/robots.txt` raises a timeout but everything else
answers a parseable 200. -/
def mixedNet : Net := fun req =>
  if req.url = "http://localhost:8501/robots.txt" then Except.error (PyExn.exn "Read timed out.")
  else Except.ok jsonOkResp

/-! ## Run characterizations -/

theorem check_health_run (net : Net) (c : SlideDeckAIClient) (log : List Request) :
    check_health net c log =
      (Except.ok (healthRes net c), log ++ [getReq (c.base_url ++ "/health")]) := by
  cases h : net (getReq (c.base_url ++ "/health")) with
  | ok resp =>
    cases hj : resp.jsonResult <;>
      simp [check_health, healthRes, pyTry, PM.bind, PM.pure, callNet, respJson, h, hj]
  | error e =>
    cases e <;>
      simp [check_health, healthRes, pyTry, PM.bind, PM.pure, callNet, h]

theorem get_page_run (net : Net) (c : SlideDeckAIClient) (path : String) (log : List Request) :
    get_page net c path log =
      (Except.ok (pageRes net c path), log ++ [getReq (c.base_url ++ path)]) := by
  cases h : net (getReq (c.base_url ++ path)) with
  | ok resp => simp [get_page, pageRes, pyTry, PM.bind, PM.pure, callNet, h]
  | error e => simp [get_page, pageRes, pyTry, PM.bind, PM.pure, callNet, h]

theorem sweep_run (net : Net) (c : SlideDeckAIClient) (eps : List String) :
    ∀ log, sweep net c eps log =
      (Except.ok (eps.map (classify net c)),
       log ++ eps.map (fun ep => getReq (c.base_url ++ ep))) := by
  induction eps with
  | nil => intro log; simp [sweep, PM.pure]
  | cons ep rest ih =>
    intro log
    cases h : net (getReq (c.base_url ++ ep)) with
    | ok resp =>
      simp [sweep, PM.bind, PM.pure, get_page_run, pageRes, classify, h, ih, List.append_assoc]
    | error e =>
      simp [sweep, PM.bind, PM.pure, get_page_run, pageRes, classify, h, ih, List.append_assoc]

theorem test_homepage_run (net : Net) (c : SlideDeckAIClient) (log : List Request) :
    test_homepage net c log =
      (Except.ok (homepageRes net c), log ++ homepageTrace net c) := by
  cases hh : healthRes net c with
  | error m =>
    simp [test_homepage, PM.bind, PM.pure, check_health_run, hh, homepageRes, homepageTrace]
  | ok code j =>
    cases hp : pageRes net c "/" with
    | error m =>
      simp [test_homepage, PM.bind, PM.pure, check_health_run, get_page_run, hh, hp,
        homepageRes, homepageTrace, List.append_assoc]
    | ok a b d =>
      simp [test_homepage, PM.bind, PM.pure, check_health_run, get_page_run, sweep_run,
        hh, hp, homepageRes, homepageTrace, List.append_assoc]

theorem tryEndpoint_run (net : Net) (c : SlideDeckAIClient) (prompt : String)
    (api_key : Option String) (ep : String) (log : List Request) :
    tryEndpoint net c prompt api_key ep log =
      (Except.ok (endpointSignal net c prompt api_key ep),
       log ++ [genReq c prompt api_key ep]) := by
  cases h : net (genReq c prompt api_key ep) with
  | error e =>
    cases e <;>
      simp [tryEndpoint, endpointSignal, pyTry, PM.bind, PM.pure, callNet, respJson, h]
  | ok resp =>
    by_cases hs : resp.status_code = 200
    · cases hj : resp.jsonResult <;>
        simp [tryEndpoint, endpointSignal, pyTry, PM.bind, PM.pure, callNet, respJson, h, hs, hj]
    · simp [tryEndpoint, endpointSignal, pyTry, PM.bind, PM.pure, callNet, respJson, h, hs]

theorem genLoop_run (net : Net) (c : SlideDeckAIClient) (prompt : String)
    (api_key : Option String) (eps : List String) :
    ∀ log, genLoop net c prompt api_key eps log =
      (Except.ok (genLoopRes net c prompt api_key eps),
       log ++ genLoopTrace net c prompt api_key eps) := by
  induction eps with
  | nil => intro log; simp [genLoop, genLoopRes, genLoopTrace, PM.pure]
  | cons ep rest ih =>
    intro log
    cases hsig : endpointSignal net c prompt api_key ep <;>
      simp [genLoop, genLoopRes, genLoopTrace, PM.bind, PM.pure, tryEndpoint_run, hsig, ih,
        List.append_assoc]

/-! ## Loop signal case lemmas -/

theorem endpointSignal_found (net : Net) (c : SlideDeckAIClient) (prompt : String)
    (api_key : Option String) (ep : String) (resp : Response) (j : JsonVal)
    (h : net (genReq c prompt api_key ep) = Except.ok resp)
    (hs : resp.status_code = 200) (hj : resp.jsonResult = Except.ok j) :
    endpointSignal net c prompt api_key ep = LoopSignal.found j := by
  simp [endpointSignal, h, hs, hj]

theorem endpointSignal_stop (net : Net) (c : SlideDeckAIClient) (prompt : String)
    (api_key : Option String) (ep : String) (m : String)
    (h : net (genReq c prompt api_key ep) = Except.error (PyExn.connectionError m)) :
    endpointSignal net c prompt api_key ep = LoopSignal.stop := by
  simp [endpointSignal, h]

theorem endpointSignal_next_of_skip (net : Net) (c : SlideDeckAIClient) (prompt : String)
    (api_key : Option String) (ep : String) (resp : Response)
    (h : net (genReq c prompt api_key ep) = Except.ok resp)
    (hns : resp.status_code ≠ 200 ∨ ∃ m, resp.jsonResult = Except.error m) :
    endpointSignal net c prompt api_key ep = LoopSignal.next := by
  rcases hns with hns | ⟨m, hm⟩
  · simp [endpointSignal, h, hns]
  · by_cases hs : resp.status_code = 200 <;> simp [endpointSignal, h, hs, hm]

theorem endpointSignal_next_of_exn (net : Net) (c : SlideDeckAIClient) (prompt : String)
    (api_key : Option String) (ep : String) (m : String)
    (h : net (genReq c prompt api_key ep) = Except.error (PyExn.exn m)) :
    endpointSignal net c prompt api_key ep = LoopSignal.next := by
  simp [endpointSignal, h]

/-- Candidates that neither succeed nor break are walked past: the loop on a
skipped prefix behaves as the loop on the rest, after POSTing each skipped
candidate once. -/
theorem genLoop_skip_prefix (net : Net) (c : SlideDeckAIClient) (prompt : String)
    (api_key : Option String) (eps₁ rest : List String)
    (hskip : ∀ ep ∈ eps₁, endpointSignal net c prompt api_key ep = LoopSignal.next) :
    genLoopRes net c prompt api_key (eps₁ ++ rest) = genLoopRes net c prompt api_key rest ∧
    genLoopTrace net c prompt api_key (eps₁ ++ rest) =
      eps₁.map (genReq c prompt api_key) ++ genLoopTrace net c prompt api_key rest := by
  induction eps₁ with
  | nil => simp
  | cons ep eps ih =>
    have hsig := hskip ep (by simp)
    have ih' := ih (fun e he => hskip e (by simp [he]))
    simp [genLoopRes, genLoopTrace, hsig, ih'.1, ih'.2]

/-! ## Trailing-slash normalization -/

theorem head?_dropWhile {α : Type} (p : α → Bool) :
    ∀ (l : List α) (a : α), (l.dropWhile p).head? = some a → p a = false := by
  intro l
  induction l with
  | nil => intro a h; simp [List.dropWhile] at h
  | cons x xs ih =>
    intro a h
    rw [List.dropWhile_cons] at h
    by_cases hx : p x
    · exact ih a (by simpa [hx] using h)
    · rw [if_neg hx] at h
      simp only [List.head?_cons, Option.some.injEq] at h
      subst h
      simpa using hx

theorem rstripSlash_append (s : String) :
    ∃ k, s.data = (rstripSlash s).data ++ List.replicate k '/' := by
  refine ⟨(s.data.reverse.takeWhile (fun c => c == '/')).length, ?_⟩
  have htake : s.data.reverse.takeWhile (fun c => c == '/') =
      List.replicate (s.data.reverse.takeWhile (fun c => c == '/')).length '/' := by
    apply List.eq_replicate_of_mem
    intro b hb
    have := List.mem_takeWhile_imp hb
    simpa using this
  have hsplit : s.data.reverse.takeWhile (fun c => c == '/') ++
      s.data.reverse.dropWhile (fun c => c == '/') = s.data.reverse :=
    List.takeWhile_append_dropWhile (fun c => c == '/') s.data.reverse
  have := congrArg List.reverse hsplit
  simp only [List.reverse_append, List.reverse_reverse] at this
  rw [rstripSlash]
  conv_lhs => rw [← this]
  rw [htake]
  simp

theorem rstripSlash_no_trailing (s : String) (a : Char)
    (h : (rstripSlash s).data.getLast? = some a) : (a == '/') = false := by
  rw [rstripSlash] at h
  simp only [List.getLast?_reverse] at h
  exact head?_dropWhile (fun c => c == '/') _ a h

/-! ## Trace shape lemmas -/

theorem homepageTrace_urls (net : Net) (c : SlideDeckAIClient) :
    ∀ req ∈ homepageTrace net c, ∃ p, req.url = c.base_url ++ p := by
  intro req hreq
  cases hh : healthRes net c with
  | error m =>
    simp [homepageTrace, hh] at hreq
    exact ⟨"/health", by simp [hreq, getReq]⟩
  | ok code j =>
    cases hp : pageRes net c "/" with
    | error m =>
      simp [homepageTrace, hh, hp] at hreq
      rcases hreq with hreq | hreq
      · exact ⟨"/health", by simp [hreq, getReq]⟩
      · exact ⟨"/", by simp [hreq, getReq]⟩
    | ok x y z =>
      simp [homepageTrace, hh, hp] at hreq
      rcases hreq with hreq | hreq | ⟨ep, hep, hreq⟩
      · exact ⟨"/health", by simp [hreq, getReq]⟩
      · exact ⟨"/", by simp [hreq, getReq]⟩
      · exact ⟨ep, by simp [← hreq, getReq]⟩

theorem genLoopTrace_mem (net : Net) (c : SlideDeckAIClient) (prompt : String)
    (api_key : Option String) :
    ∀ (eps : List String) (req : Request), req ∈ genLoopTrace net c prompt api_key eps →
      ∃ ep ∈ eps, req = genReq c prompt api_key ep := by
  intro eps
  induction eps with
  | nil => intro req hreq; simp [genLoopTrace] at hreq
  | cons ep rest ih =>
    intro req hreq
    rw [genLoopTrace] at hreq
    rcases List.mem_cons.1 hreq with hreq | hreq
    · exact ⟨ep, by simp, hreq⟩
    · cases hsig : endpointSignal net c prompt api_key ep with
      | next =>
        rw [hsig] at hreq
        obtain ⟨ep', hep', hreq'⟩ := ih req hreq
        exact ⟨ep', by simp [hep'], hreq'⟩
      | found data => rw [hsig] at hreq; simp at hreq
      | stop => rw [hsig] at hreq; simp at hreq

/-! ## Claims -/

/-- C1 counterexample: against a server that answers the health GET with a
404 whose HTML body is not JSON, a response is received, yet `check_health`
returns the error variant (carrying the decode exception's message) instead
of an ok variant carrying the status code and raw body: the generic
`except Exception` clause catches the `response.json()` failure. -/
theorem check_health_nonjson_counterexample :
    nonJsonNet (getReq ("http://localhost:8501" ++ "/health")) = Except.ok nonJsonResp ∧
    (check_health nonJsonNet localClient []).1 =
      Except.ok (HealthResult.error "Expecting value: line 1 column 1 (char 0)") := by
  constructor
  · rfl
  · rfl

/-- C1 (amended): for every HTTP response received by `check_health` (any
status code, including non-2xx such as 404), if the body parses as JSON the
result is the ok variant carrying that status code and the parsed body;
if the body fails to parse, the result is the error variant carrying the
decode exception's message.  So both transport faults and body-parse faults
produce the error variant; only received responses with JSON bodies produce
the ok variant. -/
theorem check_health_received_response (net : Net) (c : SlideDeckAIClient) (resp : Response)
    (h : net (getReq (c.base_url ++ "/health")) = Except.ok resp) :
    (check_health net c []).1 =
      Except.ok (match resp.jsonResult with
        | Except.ok j => HealthResult.ok resp.status_code j
        | Except.error m => HealthResult.error m) := by
  rw [check_health_run]
  cases hj : resp.jsonResult <;> simp [healthRes, h, hj]

/-- C1 witness: a 404 response with a JSON body yields the ok variant with
code 404. -/
theorem check_health_received_response_witness :
    (check_health (fun _ => Except.ok
        { status_code := 404
          headers := [("Content-Type", "application/json")]
          content_length := 2
          jsonResult := Except.ok (JsonVal.obj []) }) localClient []).1 =
      Except.ok (HealthResult.ok 404 (JsonVal.obj [])) := by
  have h := check_health_received_response
    (fun _ => Except.ok
      { status_code := 404
        headers := [("Content-Type", "application/json")]
        content_length := 2
        jsonResult := Except.ok (JsonVal.obj []) })
    localClient
    { status_code := 404
      headers := [("Content-Type", "application/json")]
      content_length := 2
      jsonResult := Except.ok (JsonVal.obj []) }
    rfl
  simpa using h

/-- C2: `generate_slide_deck` returns the parsed payload of the first
candidate, in the fixed listed order, whose response has status 200 and a
JSON-parseable body; each earlier candidate with a received response of any
other status, or a 200 body that fails to parse, is skipped; and the trace
of issued requests stops at the succeeding candidate, so no later candidate
is ever contacted. -/
theorem generate_first_success (net : Net) (c : SlideDeckAIClient) (prompt : String)
    (api_key : Option String) (eps₁ eps₂ : List String) (ep₀ : String)
    (hsplit : api_endpoints = eps₁ ++ ep₀ :: eps₂)
    (hskip : ∀ ep ∈ eps₁, ∃ resp, net (genReq c prompt api_key ep) = Except.ok resp ∧
      (resp.status_code ≠ 200 ∨ ∃ m, resp.jsonResult = Except.error m))
    (resp₀ : Response) (j : JsonVal)
    (h₀ : net (genReq c prompt api_key ep₀) = Except.ok resp₀)
    (hs₀ : resp₀.status_code = 200) (hj₀ : resp₀.jsonResult = Except.ok j) :
    generate_slide_deck net c prompt api_key [] =
      (Except.ok (GenResult.success j), (eps₁ ++ [ep₀]).map (genReq c prompt api_key)) := by
  have hnext : ∀ ep ∈ eps₁, endpointSignal net c prompt api_key ep = LoopSignal.next := by
    intro ep hep
    obtain ⟨resp, h1, h2⟩ := hskip ep hep
    exact endpointSignal_next_of_skip net c prompt api_key ep resp h1 h2
  have hsig₀ := endpointSignal_found net c prompt api_key ep₀ resp₀ j h₀ hs₀ hj₀
  have hpre := genLoop_skip_prefix net c prompt api_key eps₁ (ep₀ :: eps₂) hnext
  rw [generate_slide_deck, hsplit, genLoop_run, hpre.1, hpre.2]
  simp [genLoopRes, genLoopTrace, hsig₀]

/-- C2 witness: on `hitNet`, `/api/generate` answers a non-JSON 404 and
`/api/slide` a parseable 200; the run returns the second candidate's parsed
payload and issues exactly those two POSTs. -/
theorem generate_first_success_witness :
    generate_slide_deck hitNet localClient "make slides" none [] =
      (Except.ok (GenResult.success (JsonVal.obj [("ok", JsonVal.bool true)])),
       (["/api/generate"] ++ ["/api/slide"]).map (genReq localClient "make slides" none)) := by
  exact generate_first_success hitNet localClient "make slides" none
    ["/api/generate"] ["/api/v1/generate", "/api/generate_slides", "/generate"] "/api/slide"
    rfl
    (by
      intro ep hep
      rw [List.mem_singleton] at hep
      subst hep
      exact ⟨nonJsonResp, rfl,
        Or.inr ⟨"Expecting value: line 1 column 1 (char 0)", rfl⟩⟩)
    slideOkResp (JsonVal.obj [("ok", JsonVal.bool true)]) rfl rfl rfl

/-- C3: if a candidate POST raises `ConnectionError` (after any earlier
candidates were skipped without succeeding or breaking), the whole sweep
stops there: the overall result is the failure dict and no later candidate
request is issued.  With nothing listening, this happens at the very first
candidate. -/
theorem generate_connection_refused_stops (net : Net) (c : SlideDeckAIClient) (prompt : String)
    (api_key : Option String) (eps₁ eps₂ : List String) (ep₀ : String)
    (hsplit : api_endpoints = eps₁ ++ ep₀ :: eps₂)
    (hskip : ∀ ep ∈ eps₁,
      (∃ resp, net (genReq c prompt api_key ep) = Except.ok resp ∧
        (resp.status_code ≠ 200 ∨ ∃ m, resp.jsonResult = Except.error m)) ∨
      (∃ m, net (genReq c prompt api_key ep) = Except.error (PyExn.exn m)))
    (m₀ : String)
    (h₀ : net (genReq c prompt api_key ep₀) = Except.error (PyExn.connectionError m₀)) :
    generate_slide_deck net c prompt api_key [] =
      (Except.ok (GenResult.failure "No API endpoint found"),
       (eps₁ ++ [ep₀]).map (genReq c prompt api_key)) := by
  have hnext : ∀ ep ∈ eps₁, endpointSignal net c prompt api_key ep = LoopSignal.next := by
    intro ep hep
    rcases hskip ep hep with ⟨resp, h1, h2⟩ | ⟨m, hm⟩
    · exact endpointSignal_next_of_skip net c prompt api_key ep resp h1 h2
    · exact endpointSignal_next_of_exn net c prompt api_key ep m hm
  have hsig₀ := endpointSignal_stop net c prompt api_key ep₀ m₀ h₀
  have hpre := genLoop_skip_prefix net c prompt api_key eps₁ (ep₀ :: eps₂) hnext
  rw [generate_slide_deck, hsplit, genLoop_run, hpre.1, hpre.2]
  simp [genLoopRes, genLoopTrace, hsig₀]

/-- C3 witness: against `refusedNet` (nothing listening) the sweep returns
failure after issuing only the first candidate's POST. -/
theorem generate_connection_refused_stops_witness :
    generate_slide_deck refusedNet localClient "make slides" none [] =
      (Except.ok (GenResult.failure "No API endpoint found"),
       ([] ++ ["/api/generate"]).map (genReq localClient "make slides" none)) := by
  exact generate_connection_refused_stops refusedNet localClient "make slides" none
    [] ["/api/slide", "/api/v1/generate", "/api/generate_slides", "/generate"] "/api/generate"
    rfl
    (by intro ep hep; simp at hep)
    "Connection refused" rfl

/-- C4: whenever the health check or the homepage fetch reports the error
variant, `test_homepage` returns the failure dict, and its trace holds only
the health GET (and possibly the homepage GET): no request of the
well-known-path sweep is issued. -/
theorem test_homepage_aborts_on_error (net : Net) (c : SlideDeckAIClient)
    (h : (∃ m, (check_health net c []).1 = Except.ok (HealthResult.error m)) ∨
         (∃ m, (get_page net c "/" []).1 = Except.ok (PageResult.error m))) :
    (test_homepage net c []).1 = Except.ok { success := false, reports := [] } ∧
    ((test_homepage net c []).2 = [getReq (c.base_url ++ "/health")] ∨
     (test_homepage net c []).2 =
       [getReq (c.base_url ++ "/health"), getReq (c.base_url ++ "/")]) := by
  simp only [check_health_run, get_page_run] at h
  rcases h with ⟨m, hm⟩ | ⟨m, hm⟩
  · simp only [Except.ok.injEq] at hm
    simp [test_homepage_run, homepageRes, homepageTrace, hm]
  · simp only [Except.ok.injEq] at hm
    cases hh : healthRes net c with
    | error m₂ => simp [test_homepage_run, homepageRes, homepageTrace, hh]
    | ok code j => simp [test_homepage_run, homepageRes, homepageTrace, hh, hm]

/-- C4 witness: on `homeFailNet` the health check passes but the homepage
fetch raises; the sweep aborts with failure after the two GETs. -/
theorem test_homepage_aborts_on_error_witness :
    (test_homepage homeFailNet localClient []).1 =
      Except.ok { success := false, reports := [] } ∧
    ((test_homepage homeFailNet localClient []).2 =
       [getReq ("http://localhost:8501" ++ "/health")] ∨
     (test_homepage homeFailNet localClient []).2 =
       [getReq ("http://localhost:8501" ++ "/health"), getReq ("http://localhost:8501" ++ "/")]) := by
  exact test_homepage_aborts_on_error homeFailNet localClient
    (Or.inr ⟨"Read timed out.", rfl⟩)

/-- C5: against an unreachable target (every request raises
`ConnectionError`), `check_health` returns the error variant with the fixed
connection-refused message, independent of the exception's own string, and
`get_page` returns the error variant carrying the connection exception's
message; whereas (third conjunct) a non-connection transport fault makes
`check_health` report that fault's own message — the connection-refused
reason is reported specifically and distinctly. -/
theorem unreachable_connection_refused (net net₂ : Net) (msgOf : Request → String)
    (c : SlideDeckAIClient) (path m₂ : String)
    (h : ∀ req, net req = Except.error (PyExn.connectionError (msgOf req)))
    (h₂ : net₂ (getReq (c.base_url ++ "/health")) = Except.error (PyExn.exn m₂)) :
    (check_health net c []).1 = Except.ok (HealthResult.error "Could not connect to server") ∧
    (get_page net c path []).1 =
      Except.ok (PageResult.error (msgOf (getReq (c.base_url ++ path)))) ∧
    (check_health net₂ c []).1 = Except.ok (HealthResult.error m₂) := by
  refine ⟨?_, ?_, ?_⟩
  · rw [check_health_run]; simp [healthRes, h]
  · rw [get_page_run]; simp [pageRes, h, PyExn.msg]
  · rw [check_health_run]; simp [healthRes, h₂]

/-- C5 witness: `refusedNet` gives the fixed connection message from
`check_health` and the raw exception string from `get_page`; `timeoutNet`
makes `check_health` report the timeout's own message. -/
theorem unreachable_connection_refused_witness :
    (check_health refusedNet localClient []).1 =
      Except.ok (HealthResult.error "Could not connect to server") ∧
    (get_page refusedNet localClient "/robots.txt" []).1 =
      Except.ok (PageResult.error
        ((fun _ => "Connection refused") (getReq (localClient.base_url ++ "/robots.txt")))) ∧
    (check_health timeoutNet localClient []).1 =
      Except.ok (HealthResult.error "Read timed out.") := by
  exact unreachable_connection_refused refusedNet timeoutNet (fun _ => "Connection refused")
    localClient "/robots.txt" "Read timed out." (fun _ => rfl) rfl

/-- C6 counterexample: with every candidate answering a non-JSON 404, the
sweep is exhausted and returns the failure dict — but its message is
"No API endpoint found" (capital N, from the source's return statement),
not the claimed "no API endpoint found". -/
theorem generate_exhausted_message_counterexample :
    generate_slide_deck nonJsonNet localClient "make slides" none [] =
      (Except.ok (GenResult.failure "No API endpoint found"),
       api_endpoints.map (genReq localClient "make slides" none)) ∧
    "No API endpoint found" ≠ "no API endpoint found" := by
  constructor
  · rfl
  · decide

/-- C6 (amended): when the five candidate paths are exhausted without any
response that has status 200 and a JSON-parseable body (each candidate
either received a skippable response or raised a non-connection fault),
`generate_slide_deck` issues all five POSTs and returns the failure variant
with the message "No API endpoint found". -/
theorem generate_exhausted_failure (net : Net) (c : SlideDeckAIClient) (prompt : String)
    (api_key : Option String)
    (hskip : ∀ ep ∈ api_endpoints,
      (∃ resp, net (genReq c prompt api_key ep) = Except.ok resp ∧
        (resp.status_code ≠ 200 ∨ ∃ m, resp.jsonResult = Except.error m)) ∨
      (∃ m, net (genReq c prompt api_key ep) = Except.error (PyExn.exn m))) :
    generate_slide_deck net c prompt api_key [] =
      (Except.ok (GenResult.failure "No API endpoint found"),
       api_endpoints.map (genReq c prompt api_key)) := by
  have hnext : ∀ ep ∈ api_endpoints, endpointSignal net c prompt api_key ep = LoopSignal.next := by
    intro ep hep
    rcases hskip ep hep with ⟨resp, h1, h2⟩ | ⟨m, hm⟩
    · exact endpointSignal_next_of_skip net c prompt api_key ep resp h1 h2
    · exact endpointSignal_next_of_exn net c prompt api_key ep m hm
  have hpre := genLoop_skip_prefix net c prompt api_key api_endpoints [] hnext
  rw [List.append_nil] at hpre
  rw [generate_slide_deck, genLoop_run, hpre.1, hpre.2]
  simp [genLoopRes, genLoopTrace]

/-- C6 witness: with every candidate raising a read timeout, all five POSTs
are issued and the failure dict carries the source's message. -/
theorem generate_exhausted_failure_witness :
    generate_slide_deck timeoutNet localClient "make slides" none [] =
      (Except.ok (GenResult.failure "No API endpoint found"),
       api_endpoints.map (genReq localClient "make slides" none)) := by
  exact generate_exhausted_failure timeoutNet localClient "make slides" none
    (fun ep _ => Or.inr ⟨"Read timed out.", rfl⟩)

/-- C7: once the health check and the homepage fetch both pass,
`test_homepage` GETs all three fixed well-known paths — its trace holds
exactly the health GET, the homepage GET and one GET per path — and each
path is independently classified by `classify` (available with its status
code when a response arrives, unavailable when the call raises); a failure
on one path cannot abort the sweep or change the requests issued. -/
theorem test_homepage_sweep_all_paths (net : Net) (c : SlideDeckAIClient)
    (resp₀ resp₁ : Response) (j : JsonVal)
    (h₀ : net (getReq (c.base_url ++ "/health")) = Except.ok resp₀)
    (hj : resp₀.jsonResult = Except.ok j)
    (h₁ : net (getReq (c.base_url ++ "/")) = Except.ok resp₁) :
    test_homepage net c [] =
      (Except.ok { success := true, reports := endpoints.map (classify net c) },
       getReq (c.base_url ++ "/health") :: getReq (c.base_url ++ "/") ::
         endpoints.map (fun ep => getReq (c.base_url ++ ep))) := by
  rw [test_homepage_run]
  simp [homepageRes, homepageTrace, healthRes, pageRes, h₀, hj, h₁]

/-- C7 witness: on `mixedNet` the `/robots.txt` GET raises, yet all three
paths are attempted and classified independently. -/
theorem test_homepage_sweep_all_paths_witness :
    test_homepage mixedNet localClient [] =
      (Except.ok (TestResult.mk true
         [PathReport.available "/_stcore/health" 200,
          PathReport.unavailable "/robots.txt",
          PathReport.available "/favicon.ico" 200]),
       [getReq "http://localhost:8501/health", getReq "http://localhost:8501/",
        getReq "http://localhost:8501/_stcore/health", getReq "http://localhost:8501/robots.txt",
        getReq "http://localhost:8501/favicon.ico"]) := by
  have h := test_homepage_sweep_all_paths mixedNet localClient jsonOkResp jsonOkResp
    (JsonVal.obj []) rfl rfl rfl
  rw [h]
  rfl

/-- C8: no exception escapes any public operation: for every oracle (any
mix of transport faults and unparseable bodies) each of `check_health`,
`get_page`, `test_homepage` and `generate_slide_deck` returns a normal
result dictionary — the exception component of the run is always ok. -/
theorem no_exception_escapes (net : Net) (c : SlideDeckAIClient) (path prompt : String)
    (api_key : Option String) (log : List Request) :
    (∃ r, (check_health net c log).1 = Except.ok r) ∧
    (∃ r, (get_page net c path log).1 = Except.ok r) ∧
    (∃ r, (test_homepage net c log).1 = Except.ok r) ∧
    (∃ r, (generate_slide_deck net c prompt api_key log).1 = Except.ok r) := by
  refine ⟨⟨healthRes net c, ?_⟩, ⟨pageRes net c path, ?_⟩, ⟨homepageRes net c, ?_⟩,
    ⟨genLoopRes net c prompt api_key api_endpoints, ?_⟩⟩
  · rw [check_health_run]
  · rw [get_page_run]
  · rw [test_homepage_run]
  · rw [generate_slide_deck, genLoop_run]

/-- C9: the constructed client stores the base URL normalized by trimming
every trailing slash (the stored string plus some run of slashes restores
the input, and the stored string never ends in a slash), and — the client
being immutable, every operation taking it unchanged — every request any
operation issues has a URL of the form stored-base ++ path. -/
theorem base_url_normalized_immutable (raw : String) (net : Net) (path prompt : String)
    (api_key : Option String) (req : Request)
    (hreq : req ∈ (check_health net (SlideDeckAIClient.init raw) []).2 ∨
            req ∈ (get_page net (SlideDeckAIClient.init raw) path []).2 ∨
            req ∈ (test_homepage net (SlideDeckAIClient.init raw) []).2 ∨
            req ∈ (generate_slide_deck net (SlideDeckAIClient.init raw) prompt api_key []).2) :
    (SlideDeckAIClient.init raw).base_url = rstripSlash raw ∧
    (∃ k, raw.data = (SlideDeckAIClient.init raw).base_url.data ++ List.replicate k '/') ∧
    (∀ a, (SlideDeckAIClient.init raw).base_url.data.getLast? = some a → (a == '/') = false) ∧
    (∃ p, req.url = (SlideDeckAIClient.init raw).base_url ++ p) := by
  refine ⟨rfl, rstripSlash_append raw, fun a ha => rstripSlash_no_trailing raw a ha, ?_⟩
  rcases hreq with hreq | hreq | hreq | hreq
  · rw [check_health_run] at hreq
    simp at hreq
    exact ⟨"/health", by simp [hreq, getReq]⟩
  · rw [get_page_run] at hreq
    simp at hreq
    exact ⟨path, by simp [hreq, getReq]⟩
  · rw [test_homepage_run] at hreq
    simp at hreq
    exact homepageTrace_urls net (SlideDeckAIClient.init raw) req hreq
  · rw [generate_slide_deck, genLoop_run] at hreq
    simp at hreq
    obtain ⟨ep, hep, hreq'⟩ :=
      genLoopTrace_mem net (SlideDeckAIClient.init raw) prompt api_key api_endpoints req hreq
    exact ⟨ep, by simp [hreq', genReq, postReq]⟩

/-- C9 witness: a base URL with three trailing slashes is stored stripped,
and the health request of a run against it is formed from the stored
base. -/
theorem base_url_normalized_immutable_witness :
    (SlideDeckAIClient.init "http://localhost:8501///").base_url =
      rstripSlash "http://localhost:8501///" ∧
    (∃ k, ("http://localhost:8501///" : String).data =
      (SlideDeckAIClient.init "http://localhost:8501///").base_url.data ++
        List.replicate k '/') ∧
    (∀ a, (SlideDeckAIClient.init "http://localhost:8501///").base_url.data.getLast? = some a →
      (a == '/') = false) ∧
    (∃ p, (getReq ("http://localhost:8501" ++ "/health")).url =
      (SlideDeckAIClient.init "http://localhost:8501///").base_url ++ p) := by
  exact base_url_normalized_immutable "http://localhost:8501///" refusedNet "/" "make slides"
    none (getReq ("http://localhost:8501" ++ "/health"))
    (Or.inl (by
      rw [check_health_run]
      exact List.mem_append_right _ (List.mem_cons_self _ _)))

/-- C10: every candidate POST issued by `generate_slide_deck` carries the
JSON object with exactly the keys "prompt" and "api_key"; with no
credential supplied the "api_key" key is still present, bound to JSON
null. -/
theorem generation_payload_fields (net : Net) (c : SlideDeckAIClient) (prompt : String)
    (api_key : Option String) (req : Request)
    (hreq : req ∈ (generate_slide_deck net c prompt api_key []).2) :
    req.method = Method.post ∧
    req.body = some (JsonVal.obj
      [("prompt", JsonVal.str prompt),
       ("api_key", match api_key with
         | some k => JsonVal.str k
         | none => JsonVal.null)]) := by
  rw [generate_slide_deck, genLoop_run] at hreq
  simp at hreq
  obtain ⟨ep, hep, hreq'⟩ := genLoopTrace_mem net c prompt api_key api_endpoints req hreq
  subst hreq'
  cases api_key <;> exact ⟨rfl, rfl⟩

/-- C10 witness: the first candidate POST of a run without a credential
carries exactly the two keys, with api_key null. -/
theorem generation_payload_fields_witness :
    (genReq localClient "make slides" none "/api/generate").method = Method.post ∧
    (genReq localClient "make slides" none "/api/generate").body =
      some (JsonVal.obj [("prompt", JsonVal.str "make slides"), ("api_key", JsonVal.null)]) := by
  exact generation_payload_fields refusedNet localClient "make slides" none
    (genReq localClient "make slides" none "/api/generate")
    (by
      rw [generate_slide_deck, genLoop_run]
      exact List.mem_append_right _ (List.mem_cons_self _ _))
